import Mathlib

/-!
Verification of the AI event-processing core of the repository
(`backend/app/ai/`): the rule cache and weighted severity scorer
(`rules_processor.py`), the severity-to-action decision maker
(`decision_maker.py`), the feedback-driven rule adaptation
(`feedback_processor.py`), the notification batching/retry/escalation
subsystem (`notifications.py`) and the event orchestrator
(`event_listener.py`).

Modelling conventions:
* Python floats are modelled exactly: all rule scores are products of a
  severity rank (1..4) with boosts 1.2 and 1.1, so scores are kept as
  integers in hundredths (`base * (12|10) * (11|10)`); the 16 possible
  values are pairwise distinct for distinct factor combinations, so the
  argmax and tie behaviour coincide with the Python float computation.
  Confidence is the exact rational `min (scoreH / 528) 1`.
* Nullable DB columns become `Option String`; Python truthiness of a
  string (`None` and `""` falsy) is spelled out at each use site.
* Database/side-effect sequences are modelled as explicit state passing
  plus an append-only effect trace.
* Fallible code returns `Except`: the Feedback Adaptor's
  `AIFeedback(...)` constructor call raises `TypeError` (the model has
  no `suggested_severity` column), so `submit_feedback` is
  `Except String SysState` and errors on every call.
-/

/-- Mirrors the `AIRule` ORM model (`models.py`): nullable
`severity_level` and `action_type`, boolean `adaptive_flag`, and a
`last_updated` timestamp (time is modelled as `Nat`). -/
structure AIRule where
  id : Nat
  severity_level : Option String
  action_type : Option String
  adaptive_flag : Bool
  last_updated : Nat
deriving Repr, DecidableEq

/-- Mirrors `RuleEvaluationResult` in `rules_processor.py`; confidence
is kept as an exact rational. -/
structure RuleEvaluationResult where
  severity : String
  matched_rule_id : Option Nat
  confidence : ℚ
deriving Repr, DecidableEq

/-- The `severity_order` dict in `evaluate_event`:
Low=1, Medium=2, High=3, Critical=4; anything else unrecognized. -/
def severityOrder (s : String) : Option Nat :=
  if s = "Low" then some 1
  else if s = "Medium" then some 2
  else if s = "High" then some 3
  else if s = "Critical" then some 4
  else none

/-- Rank of a nullable severity column. `None` and `""` are falsy in
Python (`if not rule.severity_level`), and `""` is not in
`severity_order` either, so both yield `none`. -/
def severityRank : Option String → Option Nat
  | none => none
  | some s => severityOrder s

/-- Python's `needle in hay` on strings: `needle` occurs as a
contiguous substring of `hay` (the empty needle always occurs). -/
def strIn (needle : List Char) : List Char → Bool
  | [] => needle.isPrefixOf []
  | c :: t => needle.isPrefixOf (c :: t) || strIn needle t

/-- `str.lower()` on one character. The rule/event strings this system
compares are ASCII (event types are validated to `create|modify|delete`
and `action_type` is an ASCII tag), where Python's `str.lower()` is
exactly ASCII lowering. -/
def pyCharLower (c : Char) : Char :=
  if 65 ≤ c.toNat ∧ c.toNat ≤ 90 then Char.ofNat (c.toNat + 32) else c

/-- `str.lower()` on a string's characters. -/
def pyLower (s : List Char) : List Char := s.map pyCharLower

/-- The event-type match test of `evaluate_event` line 84:
`rule.action_type and event.event_type in rule.action_type.lower()`.
The first conjunct is Python truthiness of the nullable column. -/
def eventMatches (event_type : String) (action_type : Option String) : Bool :=
  match action_type with
  | none => false
  | some a => a ≠ "" && strIn event_type.toList (pyLower a.toList)

/-- Score of one rule, in hundredths (`None` when the rule's severity is
unrecognized and the rule is skipped):
`base * adaptive_boost * event_match_boost` with boosts 1.2 / 1.1
becomes `base * (12 or 10) * (11 or 10)`. -/
def ruleScoreH (event_type : String) (r : AIRule) : Option Nat :=
  match severityRank r.severity_level with
  | none => none
  | some base =>
      some (base * (if r.adaptive_flag then 12 else 10) *
        (if eventMatches event_type r.action_type then 11 else 10))

/-- The `scores` list built by the `for rule in rules` loop: rules with
unrecognized severity are skipped, order is preserved. -/
def scoredRules (event_type : String) (rules : List AIRule) :
    List (AIRule × Nat) :=
  rules.filterMap (fun r => (ruleScoreH event_type r).map (fun s => (r, s)))

/-- Python's `max(scores, key=lambda x: x[1])` folds left keeping the
current maximum and replaces it only on a strictly greater key, so the
first of several equal maxima wins. -/
def pickMax (x : AIRule × Nat) (l : List (AIRule × Nat)) : AIRule × Nat :=
  l.foldl (fun best y => if best.2 < y.2 then y else best) x

/-- `max` over the scored list; `none` on the empty list (the
`if not scores` early return). -/
def maxByFirst : List (AIRule × Nat) → Option (AIRule × Nat)
  | [] => none
  | x :: xs => some (pickMax x xs)

/-- The default result `RuleEvaluationResult(severity="Medium",
matched_rule_id=None, confidence=0.3)`. -/
def defaultResult : RuleEvaluationResult :=
  { severity := "Medium", matched_rule_id := none, confidence := 3/10 }

/-- `4 * 1.2 * 1.1` in hundredths. -/
def maxPossibleScoreH : Nat := 528

/-- `best_rule.severity_level or "Medium"` (Python `or` on a possibly
falsy string). -/
def severityOrMedium : Option String → String
  | none => "Medium"
  | some s => if s = "" then "Medium" else s

/-- `evaluate_event` of `rules_processor.py`, as a pure function of the
event's `event_type` and the fetched rule list: score every rule with a
recognized severity, take the maximum (first wins ties), normalize the
confidence by the maximal possible score; if the rule list is empty or
no rule scored, return the fixed default. -/
def evaluate_event (event_type : String) (rules : List AIRule) :
    RuleEvaluationResult :=
  match maxByFirst (scoredRules event_type rules) with
  | none => defaultResult
  | some best =>
      { severity := severityOrMedium best.1.severity_level
        matched_rule_id := some best.1.id
        confidence := min ((best.2 : ℚ) / (maxPossibleScoreH : ℚ)) 1 }

/-- Mirrors the `Decision` dataclass of `decision_maker.py`. -/
structure Decision where
  severity : String
  action : String
deriving Repr, DecidableEq

/-- `decide` of `decision_maker.py`: total mapping from severity to the
action directive, falling back to Low's mapping on anything
unrecognized. -/
def decide (severity : String) : Decision :=
  if severity = "Low" then { severity := severity, action := "Log event only" }
  else if severity = "Medium" then { severity := severity, action := "Notify Admin" }
  else if severity = "High" then
    { severity := severity, action := "Notify Admin and suggest action" }
  else if severity = "Critical" then
    { severity := severity
      action := "Notify Admin and prepare automated action if no response" }
  else { severity := "Low", action := "Log event only" }

/-- An append-only `Log` row (`models.py`): `log_type`, `message`,
nullable `related_event_id`. -/
structure LogEntry where
  log_type : String
  message : String
  related_event_id : Option Nat
deriving Repr, DecidableEq

/-- An `ai_feedback` row, mirroring the mapped columns of
`models.AIFeedback` (`models.py` lines 102–116; `id` and `timestamp`
elided): `event_id`, `admin_id`, `feedback_type`, `comment`. The model
has NO `suggested_severity` column — neither does the `ai_feedback`
table created by the initial migration — which is what makes the
constructor call in `submit_feedback` raise (see `aifeedbackCtorOk`). -/
structure AIFeedback where
  event_id : Nat
  admin_id : Nat
  feedback_type : String
  comment : Option String
deriving Repr, DecidableEq

/-- The durable state touched by the Feedback Adaptor: the rule store,
the feedback table, the log table, and the in-memory rule cache
(`_rule_cache` holds at most the one `"all_rules"` entry: a snapshot
and its fetch time). -/
structure SysState where
  rules : List AIRule
  feedbacks : List AIFeedback
  logs : List LogEntry
  cache : Option (List AIRule × Nat)
deriving Repr, DecidableEq

/-- Python `f"...{x}..."` on an optional string: `None` prints as
`None`, a string prints bare. -/
def pyShowOptStr : Option String → String
  | none => "None"
  | some s => s

/-- Python `f"...{x}..."` on an optional int. -/
def pyShowOptNat : Option Nat → String
  | none => "None"
  | some n => toString n

/-- Python truthiness of an optional string (`None` and `""` falsy). -/
def optStrTruthy : Option String → Bool
  | none => false
  | some s => s ≠ ""

/-- The `severity_downgrade` dict of `_adapt_rule` with its
`.get(old_severity, old_severity)` default. -/
def severityDowngrade (s : String) : String :=
  if s = "Critical" then "High"
  else if s = "High" then "Medium"
  else if s = "Medium" then "Low"
  else s

/-- The global rejection counter of `_adapt_rule`:
`count(*) from AIFeedback where feedback_type = "reject"` — counted over
the whole feedback table, not per rule. -/
def rejectionCount (fbs : List AIFeedback) : Nat :=
  (fbs.filter (fun f => f.feedback_type = "reject")).length

/-- `_adapt_rule` of `feedback_processor.py`: pure view of the rule
mutation, given the feedback table as committed at call time (which
already includes the feedback just persisted by `submit_feedback`).
Returns the rule after mutation and the `AI_LEARNING` log rows added,
in order. -/
def adapt_rule (fbs : List AIFeedback) (rule : AIRule) (feedback_type : String)
    (suggested_severity : Option String) (event_id : Nat) :
    AIRule × List LogEntry :=
  if feedback_type = "approve" then
    if rule.adaptive_flag = false then
      ({ rule with adaptive_flag := true },
       [⟨"AI_LEARNING",
         "Rule " ++ toString rule.id ++ " marked as adaptive after approval",
         some event_id⟩])
    else (rule, [])
  else if feedback_type = "reject" then
    let rejectLog : LogEntry :=
      ⟨"AI_LEARNING",
       "Rule " ++ toString rule.id ++ " rejected by admin - may need adjustment",
       some event_id⟩
    if 3 ≤ rejectionCount fbs ∧
        (rule.severity_level = some "High" ∨ rule.severity_level = some "Critical") then
      let newSev := severityDowngrade (rule.severity_level.getD "")
      ({ rule with severity_level := some newSev },
       [rejectLog,
        ⟨"AI_LEARNING",
         "Rule " ++ toString rule.id ++ " severity auto-adjusted from " ++
           pyShowOptStr rule.severity_level ++ " to " ++ newSev ++
           " after multiple rejections",
         some event_id⟩])
    else (rule, [rejectLog])
  else if feedback_type = "modify" ∧ optStrTruthy suggested_severity then
    ({ rule with severity_level := suggested_severity, adaptive_flag := true },
     [⟨"AI_LEARNING",
       "Rule " ++ toString rule.id ++ " severity updated from " ++
         pyShowOptStr rule.severity_level ++ " to " ++
         pyShowOptStr suggested_severity ++ " based on admin feedback",
       some event_id⟩])
  else (rule, [])

/-- A committed ORM mutation of a rule object: the store row with the
same primary key takes the new value. -/
def updateRuleInStore (rules : List AIRule) (r : AIRule) : List AIRule :=
  rules.map (fun x => if x.id = r.id then r else x)

/-- Look a rule up in the store by id. -/
def findRule (rules : List AIRule) (i : Nat) : Option AIRule :=
  rules.find? (fun r => r.id = i)

/-- The attribute names SQLAlchemy maps on `models.AIFeedback`
(`models.py` lines 105–113): the six columns plus the two
relationships. These are the only keyword arguments the default
declarative constructor (`Base = declarative_base()`, `db.py` line 21,
no custom `__init__`) accepts. -/
def aifeedbackAttrs : List String :=
  ["id", "event_id", "admin_id", "feedback_type", "comment", "timestamp",
   "event", "admin"]

/-- The keyword arguments the `AIFeedback(...)` call at
`feedback_processor.py` lines 38–45 passes — unconditionally including
`suggested_severity`, whatever its value. -/
def submitFeedbackKwargs : List String :=
  ["event_id", "admin_id", "feedback_type", "comment", "timestamp",
   "suggested_severity"]

/-- Whether that constructor call succeeds: SQLAlchemy's default
declarative `__init__` raises
`TypeError: suggested_severity is an invalid keyword argument for
AIFeedback` as soon as it sees a kwarg that is not a mapped attribute.
Evaluates to `false`: `suggested_severity` is not in
`aifeedbackAttrs`. -/
def aifeedbackCtorOk : Bool :=
  submitFeedbackKwargs.all (fun k => aifeedbackAttrs.contains k)

/-- The message of the exception the constructor raises. -/
def aifeedbackTypeError : String :=
  "TypeError: suggested_severity is an invalid keyword argument for AIFeedback"

/-- `submit_feedback` of `feedback_processor.py`, with time passed in
(`now` stands for `datetime.now`). The first statement constructs
`AIFeedback(..., suggested_severity=suggested_severity)`; since the
model has no such attribute this raises `TypeError` on every call —
before `db.add`, so nothing is persisted and the exception propagates
to the caller (modelled as `Except.error`, state discarded). The
remainder of the function — persist the feedback row, append the
`AI_FEEDBACK` log, and if a rule is associated run `_adapt_rule` (which
sees the feedback table including the new row), then
`update_rule_timestamp` (`persistence.py`), then `clear_rule_cache`
(`rules_processor.py`) — is embedded under the (never-satisfied)
constructor guard, exactly as it is dead code in the source. -/
def submit_feedback (s : SysState) (event_id admin_id : Nat)
    (feedback_type : String) (comment : Option String)
    (rule : Option AIRule) (suggested_severity : Option String)
    (now : Nat) : Except String SysState :=
  if aifeedbackCtorOk then
    let fb : AIFeedback := ⟨event_id, admin_id, feedback_type, comment⟩
    let feedbacks' := s.feedbacks ++ [fb]
    let fbLog : LogEntry :=
      ⟨"AI_FEEDBACK",
       "Feedback on event " ++ toString event_id ++ ": type=" ++ feedback_type ++
         "; comment=" ++ pyShowOptStr comment ++ "; rule=" ++
         pyShowOptNat (rule.map (fun r => r.id)),
       some event_id⟩
    let logs' := s.logs ++ [fbLog]
    match rule with
    | none => Except.ok { s with feedbacks := feedbacks', logs := logs' }
    | some r =>
        let adapted := adapt_rule feedbacks' r feedback_type suggested_severity event_id
        let r' := { adapted.1 with last_updated := now }
        Except.ok
          { rules := updateRuleInStore s.rules r'
            feedbacks := feedbacks'
            logs := logs' ++ adapted.2
            cache := none }
  else Except.error aifeedbackTypeError

/-- `_cache_ttl = 60` in `rules_processor.py`. -/
def cacheTTL : Nat := 60

/-- `_get_cached_rules`: serve the cached snapshot while its age is
under the TTL, else reload from the store and replace the snapshot
(`db.merge` only re-attaches the cached objects to the session and is
value-preserving, so it is the identity here). Returns the rules served
and the cache afterwards. -/
def get_cached_rules (store : List AIRule) (cache : Option (List AIRule × Nat))
    (now : Nat) : List AIRule × Option (List AIRule × Nat) :=
  match cache with
  | some (rules, ts) =>
      if now - ts < cacheTTL then (rules, some (rules, ts))
      else (store, some (store, now))
  | none => (store, some (store, now))

/-- One observable side effect of the notification/orchestration path,
in program order: a committed `Log` row, one SMTP delivery attempt (the
`server.send_message` call inside the retry loop, with its outcome), a
backoff sleep, the scheduling of a deferred escalation job
(`background_tasks.add_task`), or setting an event's `processed_flag`.
Message payloads of outbound emails are not recorded in the trace; the
retry behaviour does not depend on them. -/
inductive NotifEffect where
  | dblog (log_type : String) (message : String) (related_event_id : Option Nat)
  | emailAttempt (attempt : Nat) (ok : Bool)
  | sleep (seconds : Nat)
  | schedule (delay : Nat) (severity : String) (event_id : Nat)
  | markProcessed (event_id : Nat)
deriving Repr, DecidableEq

/-- The `for attempt in range(max_retries)` loop of
`_send_email_with_retry`, over the list of remaining attempt indices.
`sendOk n` abstracts the transport: whether the SMTP conversation of
attempt `n` succeeds or raises. A failed attempt that is not the last
sleeps `2 ** attempt` seconds before the next one; falling off the loop
returns `False`. -/
def sendLoop (sendOk : Nat → Bool) (max_retries : Nat) :
    List Nat → Bool × List NotifEffect
  | [] => (false, [])
  | attempt :: rest =>
      if sendOk attempt then (true, [.emailAttempt attempt true])
      else
        let backoff : List NotifEffect :=
          if attempt < max_retries - 1 then [.sleep (2 ^ attempt)] else []
        let cont := sendLoop sendOk max_retries rest
        (cont.1, .emailAttempt attempt false :: (backoff ++ cont.2))

/-- `_send_email_with_retry` of `notifications.py`. `configOk`
abstracts the guards at the top of the function (missing SMTP
host/sender/recipients, or an empty parsed recipient list, return
`False` before any attempt). Exceptions never escape: every outcome is
a boolean. -/
def send_email_with_retry (configOk : Bool) (sendOk : Nat → Bool)
    (max_retries : Nat) : Bool × List NotifEffect :=
  if configOk then sendLoop sendOk max_retries (List.range max_retries)
  else (false, [])

/-- The module-level batching state of `notifications.py`:
`_notification_batch` and `_last_batch_send`. -/
structure NotifyState where
  batch : List String
  last_batch_send : Option Nat
deriving Repr, DecidableEq

/-- `_batch_interval = 300` seconds. -/
def batchInterval : Nat := 300

/-- `_send_batched_notifications`: nothing to do on an empty batch;
otherwise one combined email is sent (with retry) and the batch is
cleared regardless of the outcome. Returns the batch afterwards and the
effects. -/
def send_batched_notifications (configOk : Bool) (sendOk : Nat → Bool)
    (batch : List String) : List String × List NotifEffect :=
  match batch with
  | [] => ([], [])
  | _ :: _ => ([], (send_email_with_retry configOk sendOk 3).2)

/-- `notify_admins` of `notifications.py`: always commit a `NOTIFY` log
row first; then either send immediately, or append to the batch and
flush it when there was no previous flush (`_last_batch_send is None`)
or at least `_batch_interval` seconds passed since the last one,
recording the flush time. -/
def notify_admins (st : NotifyState) (configOk : Bool) (sendOk : Nat → Bool)
    (message : String) (immediate : Bool) (now : Nat) :
    NotifyState × List NotifEffect :=
  let logEff : NotifEffect := .dblog "NOTIFY" message none
  if immediate then
    (st, logEff :: (send_email_with_retry configOk sendOk 3).2)
  else
    let batch := st.batch ++ [message]
    let doFlush : Bool :=
      match st.last_batch_send with
      | none => true
      | some t => batchInterval ≤ now - t
    if doFlush then
      let flushed := send_batched_notifications configOk sendOk batch
      ({ batch := flushed.1, last_batch_send := some now }, logEff :: flushed.2)
    else
      ({ batch := batch, last_batch_send := st.last_batch_send }, [logEff])

/-- The escalation delays configured in `config.py`:
High → 300 s, Critical → 120 s, none otherwise
(`escalate_if_needed` lines 150–157). -/
def escalation_delay (severity : String) : Option Nat :=
  if severity = "High" then some 300
  else if severity = "Critical" then some 120
  else none

/-- `escalate_if_needed` on the request path (a `BackgroundTasks`
object is present): schedule the deferred `_escalation_job`; if
`add_task` raises (`schedOk = false`), fall back to committing an
immediate `ESCALATE` log. No effect for severities without a configured
delay. -/
def escalate_if_needed (severity : String) (event_id : Nat) (schedOk : Bool) :
    List NotifEffect :=
  match escalation_delay severity with
  | none => []
  | some delay =>
      if schedOk then [.schedule delay severity event_id]
      else
        [.dblog "ESCALATE"
          ("Escalation (immediate fallback) for event " ++ toString event_id ++
            " at severity " ++ severity)
          (some event_id)]

/-- `handle_event` of `event_listener.py`: fetch rules through the
cache, evaluate, decide, commit the `AI_DECISION` log; for Low mark the
event processed and stop; otherwise notify admins (batched) and
consider escalation; for Critical also record the prepared automated
action (`action_executor.py`). Returns the rule cache afterwards, the
batching state afterwards, whether `processed_flag` was set, and the
ordered effect trace. -/
def handle_event (store : List AIRule) (cache : Option (List AIRule × Nat))
    (nst : NotifyState) (event_id : Nat) (event_type : String) (now : Nat)
    (configOk : Bool) (sendOk : Nat → Bool) (schedOk : Bool) :
    Option (List AIRule × Nat) × NotifyState × Bool × List NotifEffect :=
  let fetched := get_cached_rules store cache now
  let er := evaluate_event event_type fetched.1
  let d := decide er.severity
  let decisionLog : NotifEffect :=
    .dblog "AI_DECISION"
      ("Event " ++ toString event_id ++ ": severity=" ++ er.severity ++
        "; action=" ++ d.action ++ "; rule=" ++ pyShowOptNat er.matched_rule_id)
      (some event_id)
  if er.severity = "Low" then
    (fetched.2, nst, true, [decisionLog, .markProcessed event_id])
  else
    let notifPart :=
      if er.severity = "Medium" ∨ er.severity = "High" ∨ er.severity = "Critical" then
        let notified := notify_admins nst configOk sendOk
          ("Event " ++ toString event_id ++ " severity " ++ er.severity ++
            ": " ++ d.action) false now
        (notified.1, notified.2 ++ escalate_if_needed er.severity event_id schedOk)
      else (nst, ([] : List NotifEffect))
    let actionPart : List NotifEffect :=
      if er.severity = "Critical" then
        [.dblog "ACTION_PREPARED"
          ("Prepared automated action for event " ++ toString event_id ++
            ": Automated safe action placeholder")
          (some event_id)]
      else []
    (fetched.2, notifPart.1, false, decisionLog :: (notifPart.2 ++ actionPart))

/-- An effect is the committed `AI_DECISION` audit log. -/
def isAIDecisionLog : NotifEffect → Bool
  | .dblog lt _ _ => lt = "AI_DECISION"
  | _ => false

/-- An effect is a notification log row or an escalation (scheduled or
immediate-fallback). -/
def isNotifyOrEscalation : NotifEffect → Bool
  | .dblog lt _ _ => lt = "NOTIFY" || lt = "ESCALATE"
  | .schedule _ _ _ => true
  | _ => false

/-- An effect belongs to the SMTP delivery machinery (an attempt or a
backoff sleep). -/
def isEmailEffect : NotifEffect → Bool
  | .emailAttempt _ _ => true
  | .sleep _ => true
  | _ => false

/-- An effect is a delivery attempt. -/
def isAttempt : NotifEffect → Bool
  | .emailAttempt _ _ => true
  | _ => false

/-- Case-insensitive substring containment, as the spec words the
event-match boost ("the rule's `action_type` case-insensitively
contains the event's `event_type` substring"); stated from the spec for
comparison with the code's `eventMatches`. -/
def ciContains (event_type : String) (action_type : Option String) : Bool :=
  match action_type with
  | none => false
  | some a => strIn (pyLower event_type.toList) (pyLower a.toList)

/-- The cached rule of the spec's worked scenario:
severity High, `action_type="notify_modify"`, adaptive. -/
def demoRule : AIRule :=
  { id := 7, severity_level := some "High", action_type := some "notify_modify"
    adaptive_flag := true, last_updated := 0 }

/-- First of two rules that score identically (both Medium, not
adaptive, no action-type match). -/
def demoTieA : AIRule :=
  { id := 1, severity_level := some "Medium", action_type := some "alert"
    adaptive_flag := false, last_updated := 0 }

/-- Second of two rules that score identically. -/
def demoTieB : AIRule :=
  { id := 2, severity_level := some "Medium", action_type := some "scan"
    adaptive_flag := false, last_updated := 0 }

/-- A Critical rule for the rejection-threshold scenario. -/
def demoRuleCrit : AIRule :=
  { id := 3, severity_level := some "Critical", action_type := some "notify"
    adaptive_flag := false, last_updated := 0 }

/-- An unrelated Low rule for the rejection-threshold scenario. -/
def demoRuleLow : AIRule :=
  { id := 4, severity_level := some "Low", action_type := some "log"
    adaptive_flag := false, last_updated := 0 }

/-- A `reject` feedback row (as it would sit in the `ai_feedback`
table). -/
def demoReject (eid : Nat) : AIFeedback :=
  { event_id := eid, admin_id := 1, feedback_type := "reject"
    comment := none }

/-- System state with two prior rejections in the feedback table and
the Critical/Low rules in the store. -/
def demoStateC2 : SysState :=
  { rules := [demoRuleCrit, demoRuleLow]
    feedbacks := [demoReject 10, demoReject 11]
    logs := []
    cache := some ([demoRuleCrit, demoRuleLow], 0) }

/-- A rule that is not yet adaptive, for the approve scenarios. -/
def demoRuleFresh : AIRule :=
  { id := 5, severity_level := some "Medium", action_type := some "notify"
    adaptive_flag := false, last_updated := 0 }

/-- System state holding just the non-adaptive rule. -/
def demoStateC5 : SysState :=
  { rules := [demoRuleFresh], feedbacks := [], logs := []
    cache := some ([demoRuleFresh], 0) }

/-- The ordered effect trace of one `handle_event` call. -/
def handleTrace (store : List AIRule) (cache : Option (List AIRule × Nat))
    (nst : NotifyState) (event_id : Nat) (event_type : String) (now : Nat)
    (configOk : Bool) (sendOk : Nat → Bool) (schedOk : Bool) : List NotifEffect :=
  (handle_event store cache nst event_id event_type now configOk sendOk schedOk).2.2.2

theorem pickMax_cons (x y : AIRule × Nat) (l : List (AIRule × Nat)) :
    pickMax x (y :: l) = pickMax (if x.2 < y.2 then y else x) l := rfl

theorem pickMax_mem (x : AIRule × Nat) (l : List (AIRule × Nat)) :
    pickMax x l ∈ x :: l := by
  induction l generalizing x with
  | nil => simp [pickMax]
  | cons y t ih =>
      by_cases hc : x.2 < y.2
      · rw [pickMax_cons, if_pos hc]
        rcases List.mem_cons.mp (ih y) with h | h
        · rw [h]; simp
        · simp [h]
      · rw [pickMax_cons, if_neg hc]
        rcases List.mem_cons.mp (ih x) with h | h
        · rw [h]; simp
        · simp [h]

theorem pickMax_le (x : AIRule × Nat) (l : List (AIRule × Nat)) :
    ∀ z ∈ x :: l, z.2 ≤ (pickMax x l).2 := by
  induction l generalizing x with
  | nil => simp [pickMax]
  | cons y t ih =>
      intro z hz
      by_cases hc : x.2 < y.2
      · rw [pickMax_cons, if_pos hc]
        have hy : y.2 ≤ (pickMax y t).2 := ih y y (List.mem_cons_self _ _)
        rcases List.mem_cons.mp hz with h | h
        · subst h; omega
        rcases List.mem_cons.mp h with h | h
        · subst h; exact hy
        · exact ih y z (List.mem_cons_of_mem _ h)
      · rw [pickMax_cons, if_neg hc]
        have hx : x.2 ≤ (pickMax x t).2 := ih x x (List.mem_cons_self _ _)
        rcases List.mem_cons.mp hz with h | h
        · subst h; exact hx
        rcases List.mem_cons.mp h with h | h
        · subst h; omega
        · exact ih x z (List.mem_cons_of_mem _ h)

theorem pickMax_first (x : AIRule × Nat) (l : List (AIRule × Nat)) :
    ∃ l1 l2, x :: l = l1 ++ (pickMax x l) :: l2 ∧
      ∀ z ∈ l1, z.2 < (pickMax x l).2 := by
  induction l generalizing x with
  | nil => exact ⟨[], [], by simp [pickMax], by simp⟩
  | cons y t ih =>
      by_cases hc : x.2 < y.2
      · rw [pickMax_cons, if_pos hc]
        rcases ih y with ⟨l1, l2, heq, hlt⟩
        refine ⟨x :: l1, l2, ?_, ?_⟩
        · simpa using congrArg (List.cons x) heq
        · intro z hz
          have hy : y.2 ≤ (pickMax y t).2 := pickMax_le _ _ _ (List.mem_cons_self _ _)
          rcases List.mem_cons.mp hz with h | h
          · subst h; omega
          · exact hlt z h
      · rw [pickMax_cons, if_neg hc]
        rcases ih x with ⟨l1, l2, heq, hlt⟩
        cases l1 with
        | nil =>
            simp only [List.nil_append, List.cons.injEq] at heq
            refine ⟨[], y :: t, ?_, by simp⟩
            simp only [List.nil_append, List.cons.injEq]
            exact ⟨heq.1, trivial⟩
        | cons a l1' =>
            simp only [List.cons_append, List.cons.injEq] at heq
            have hx : x.2 < (pickMax x t).2 := by
              have := hlt a (List.mem_cons_self _ _)
              rw [← heq.1] at this
              exact this
            refine ⟨x :: y :: l1', l2, ?_, ?_⟩
            · simp only [List.cons_append, List.cons.injEq, true_and]
              exact heq.2
            · intro z hz
              rcases List.mem_cons.mp hz with h | h
              · subst h; exact hx
              rcases List.mem_cons.mp h with h | h
              · subst h; omega
              · exact hlt z (List.mem_cons_of_mem _ h)

theorem maxByFirst_spec (l : List (AIRule × Nat)) (p : AIRule × Nat)
    (h : maxByFirst l = some p) :
    p ∈ l ∧ (∀ q ∈ l, q.2 ≤ p.2) ∧
      ∃ l1 l2, l = l1 ++ p :: l2 ∧ ∀ z ∈ l1, z.2 < p.2 := by
  cases l with
  | nil => simp [maxByFirst] at h
  | cons x xs =>
      simp only [maxByFirst, Option.some.injEq] at h
      subst h
      exact ⟨pickMax_mem x xs, pickMax_le x xs, pickMax_first x xs⟩

theorem mem_scoredRules (e : String) (rules : List AIRule) (p : AIRule × Nat) :
    p ∈ scoredRules e rules ↔ p.1 ∈ rules ∧ ruleScoreH e p.1 = some p.2 := by
  constructor
  · intro h
    rcases List.mem_filterMap.mp h with ⟨r, hr, hf⟩
    rcases Option.map_eq_some'.mp hf with ⟨s, hs, hp⟩
    cases hp
    exact ⟨hr, hs⟩
  · intro ⟨h1, h2⟩
    exact List.mem_filterMap.mpr ⟨p.1, h1, by rw [h2]; rfl⟩

theorem severityRank_le (o : Option String) (b : Nat)
    (h : severityRank o = some b) : 1 ≤ b ∧ b ≤ 4 := by
  cases o with
  | none => simp [severityRank] at h
  | some s =>
      simp only [severityRank, severityOrder] at h
      split_ifs at h <;> simp_all <;> omega

theorem severityRank_cases (o : Option String) (b : Nat)
    (h : severityRank o = some b) :
    ∃ s, o = some s ∧ severityOrMedium o = s ∧
      (s = "Low" ∨ s = "Medium" ∨ s = "High" ∨ s = "Critical") := by
  cases o with
  | none => simp [severityRank] at h
  | some s =>
      simp only [severityRank, severityOrder] at h
      refine ⟨s, rfl, ?_, ?_⟩
      · split_ifs at h <;> simp_all [severityOrMedium]
      · split_ifs at h <;> simp_all

theorem ruleScoreH_bounds (e : String) (r : AIRule) (s : Nat)
    (h : ruleScoreH e r = some s) : 1 ≤ s ∧ s ≤ 528 := by
  unfold ruleScoreH at h
  cases hr : severityRank r.severity_level with
  | none => rw [hr] at h; simp at h
  | some base =>
      rw [hr] at h
      simp only [Option.some.injEq] at h
      have hb := severityRank_le _ _ hr
      subst h
      constructor
      · have : 1 * 10 * 10 ≤ base * (if r.adaptive_flag then 12 else 10) *
            (if eventMatches e r.action_type then 11 else 10) := by
          apply Nat.mul_le_mul
          apply Nat.mul_le_mul
          · omega
          · split <;> omega
          · split <;> omega
        omega
      · have : base * (if r.adaptive_flag then 12 else 10) *
            (if eventMatches e r.action_type then 11 else 10) ≤ 4 * 12 * 11 := by
          apply Nat.mul_le_mul
          apply Nat.mul_le_mul
          · omega
          · split <;> omega
          · split <;> omega
        omega

theorem evaluate_event_of_max (e : String) (rules : List AIRule)
    (p : AIRule × Nat) (h : maxByFirst (scoredRules e rules) = some p) :
    evaluate_event e rules =
      { severity := severityOrMedium p.1.severity_level
        matched_rule_id := some p.1.id
        confidence := min ((p.2 : ℚ) / (maxPossibleScoreH : ℚ)) 1 } := by
  unfold evaluate_event
  rw [h]

theorem scoredRules_eq_nil (e : String) (rules : List AIRule) :
    scoredRules e rules = [] ↔
      ∀ r ∈ rules, severityRank r.severity_level = none := by
  unfold scoredRules
  rw [List.filterMap_eq_nil_iff]
  constructor
  · intro h r hr
    have := h r hr
    rw [Option.map_eq_none'] at this
    unfold ruleScoreH at this
    cases hs : severityRank r.severity_level with
    | none => rfl
    | some b => rw [hs] at this; simp at this
  · intro h r hr
    rw [Option.map_eq_none']
    unfold ruleScoreH
    rw [h r hr]

theorem eventMatches_eq_ci (e : String)
    (he : e = "create" ∨ e = "modify" ∨ e = "delete") (a : Option String) :
    eventMatches e a = ciContains e a := by
  cases a with
  | none => rfl
  | some s =>
      by_cases hs : s = ""
      · subst hs
        rcases he with h | h | h <;> subst h <;> decide
      · have hl : pyLower e.data = e.data := by
          rcases he with h | h | h <;> subst h <;> decide
        simp [eventMatches, ciContains, hs]
        rw [hl]

theorem ruleScoreH_some_rank (e : String) (r : AIRule) (s : Nat)
    (h : ruleScoreH e r = some s) :
    ∃ b, severityRank r.severity_level = some b := by
  unfold ruleScoreH at h
  cases hr : severityRank r.severity_level with
  | none => rw [hr] at h; simp at h
  | some b => exact ⟨b, rfl⟩

/-- C1: for every event (its `event_type` one of the validated lowercase
values) and every fetched rule list, each rule with a recognized
severity scores `rank * (1.2 if adaptive else 1.0) * (1.1 if the
action_type case-insensitively contains the event_type else 1.0)`
(in hundredths); evaluation returns the best-scoring rule's severity
with confidence `min(score / (4*1.2*1.1), 1.0)`; and in the worked
scenario (event_type "modify", one rule High/notify_modify/adaptive)
the score is 3.96, the confidence 0.75, and the decision action
"Notify Admin and suggest action". -/
theorem C1_weighted_scoring :
    (∀ (e : String) (r : AIRule) (base : Nat),
        (e = "create" ∨ e = "modify" ∨ e = "delete") →
        severityRank r.severity_level = some base →
        ruleScoreH e r =
          some (base * (if r.adaptive_flag then 12 else 10) *
            (if ciContains e r.action_type then 11 else 10))) ∧
    (∀ (e : String) (rules : List AIRule) (p : AIRule × Nat),
        maxByFirst (scoredRules e rules) = some p →
        (∀ q ∈ scoredRules e rules, q.2 ≤ p.2) ∧
        evaluate_event e rules =
          { severity := severityOrMedium p.1.severity_level
            matched_rule_id := some p.1.id
            confidence := min ((p.2 : ℚ) / (maxPossibleScoreH : ℚ)) 1 }) ∧
    scoredRules "modify" [demoRule] = [(demoRule, 396)] ∧
    evaluate_event "modify" [demoRule] =
      { severity := "High", matched_rule_id := some 7, confidence := 3/4 } ∧
    decide "High" =
      { severity := "High", action := "Notify Admin and suggest action" } := by
  refine ⟨?_, ?_, by decide, ?_, by decide⟩
  · intro e r base he hrank
    simp only [ruleScoreH, hrank]
    rw [eventMatches_eq_ci e he]
  · intro e rules p h
    exact ⟨(maxByFirst_spec _ _ h).2.1, evaluate_event_of_max e rules p h⟩
  · have h : scoredRules "modify" [demoRule] = [(demoRule, 396)] := by decide
    rw [evaluate_event, h]
    simp [maxByFirst, pickMax, severityOrMedium, demoRule, maxPossibleScoreH]
    norm_num

theorem C1_weighted_scoring_witness :
    ("modify" = "create" ∨ "modify" = "modify" ∨ "modify" = "delete") ∧
    severityRank demoRule.severity_level = some 3 ∧
    ruleScoreH "modify" demoRule =
      some (3 * (if demoRule.adaptive_flag then 12 else 10) *
        (if ciContains "modify" demoRule.action_type then 11 else 10)) :=
  ⟨Or.inr (Or.inl rfl), by decide,
   C1_weighted_scoring.1 "modify" demoRule 3 (Or.inr (Or.inl rfl)) (by decide)⟩

/-- C3: an empty rule list, or one where no rule has a recognized
severity, yields the fixed fail-open default (Medium, confidence 0.3,
no matched rule) whose decision action is "Notify Admin"; and for every
input the confidence is in [0,1] and the severity is one of the four
levels. -/
theorem C3_fail_open_default :
    (∀ (e : String) (rules : List AIRule),
        (rules = [] ∨ ∀ r ∈ rules, severityRank r.severity_level = none) →
        evaluate_event e rules = defaultResult ∧
        decide (evaluate_event e rules).severity =
          { severity := "Medium", action := "Notify Admin" }) ∧
    (∀ (e : String) (rules : List AIRule),
        0 ≤ (evaluate_event e rules).confidence ∧
        (evaluate_event e rules).confidence ≤ 1 ∧
        ((evaluate_event e rules).severity = "Low" ∨
          (evaluate_event e rules).severity = "Medium" ∨
          (evaluate_event e rules).severity = "High" ∨
          (evaluate_event e rules).severity = "Critical")) := by
  constructor
  · intro e rules h
    have hnil : scoredRules e rules = [] := by
      rcases h with h | h
      · rw [h]; rfl
      · exact (scoredRules_eq_nil e rules).mpr h
    have h1 : evaluate_event e rules = defaultResult := by
      rw [evaluate_event, hnil]
      rfl
    refine ⟨h1, ?_⟩
    rw [h1]
    decide
  · intro e rules
    cases hmax : maxByFirst (scoredRules e rules) with
    | none =>
        have h1 : evaluate_event e rules = defaultResult := by
          rw [evaluate_event, hmax]
        rw [h1]
        refine ⟨by norm_num [defaultResult], by norm_num [defaultResult], ?_⟩
        right; left; rfl
    | some p =>
        have h1 := evaluate_event_of_max e rules p hmax
        rw [h1]
        have hp := (maxByFirst_spec _ _ hmax).1
        have hscore := ((mem_scoredRules e rules p).mp hp).2
        rcases ruleScoreH_some_rank _ _ _ hscore with ⟨b, hb⟩
        rcases severityRank_cases _ _ hb with ⟨s, _, hsm, hs4⟩
        refine ⟨?_, ?_, ?_⟩
        · apply le_min
          · positivity
          · norm_num
        · exact min_le_right _ _
        · simpa [hsm] using hs4
  
theorem C3_fail_open_default_witness :
    (([] : List AIRule) = [] ∨
      ∀ r ∈ ([] : List AIRule), severityRank r.severity_level = none) ∧
    (evaluate_event "modify" [] = defaultResult ∧
      decide (evaluate_event "modify" []).severity =
        { severity := "Medium", action := "Notify Admin" }) :=
  ⟨Or.inl rfl, C3_fail_open_default.1 "modify" [] (Or.inl rfl)⟩

theorem firstMax_unique :
    ∀ (a1 b1 : List (AIRule × Nat)) (x y : AIRule × Nat)
      (a2 b2 : List (AIRule × Nat)),
      a1 ++ x :: a2 = b1 ++ y :: b2 →
      (∀ z ∈ a1, z.2 < x.2) → (∀ z ∈ b1, z.2 < y.2) → x.2 = y.2 → x = y := by
  intro a1
  induction a1 with
  | nil =>
      intro b1 x y a2 b2 h hx hy hxy
      cases b1 with
      | nil =>
          simp only [List.nil_append, List.cons.injEq] at h
          exact h.1
      | cons b bs =>
          simp only [List.nil_append, List.cons_append, List.cons.injEq] at h
          exfalso
          have hb := hy b (List.mem_cons_self _ _)
          rw [← h.1] at hb
          omega
  | cons a as ih =>
      intro b1 x y a2 b2 h hx hy hxy
      cases b1 with
      | nil =>
          simp only [List.cons_append, List.nil_append, List.cons.injEq] at h
          exfalso
          have ha := hx a (List.mem_cons_self _ _)
          rw [h.1] at ha
          omega
      | cons b bs =>
          simp only [List.cons_append, List.cons.injEq] at h
          exact ih bs x y a2 b2 h.2
            (fun z hz => hx z (List.mem_cons_of_mem _ hz))
            (fun z hz => hy z (List.mem_cons_of_mem _ hz)) hxy

/-- C4: the selected rule is maximal among the scored rules and every
rule scored before it in fetch order scores strictly less, and
evaluation reports exactly its id; consequently — second conjunct, the
claim verbatim — whenever a scored rule is preceded only by strictly
smaller scores and followed only by scores no larger (so any number of
later rules may tie with it maximally), that first-fetched rule is the
one selected, deterministically. -/
theorem C4_tie_break_first :
    (∀ (e : String) (rules : List AIRule) (p : AIRule × Nat),
      maxByFirst (scoredRules e rules) = some p →
      (∀ q ∈ scoredRules e rules, q.2 ≤ p.2) ∧
      (∃ l1 l2, scoredRules e rules = l1 ++ p :: l2 ∧ ∀ z ∈ l1, z.2 < p.2) ∧
      (evaluate_event e rules).matched_rule_id = some p.1.id) ∧
    (∀ (e : String) (rules : List AIRule) (l1 l2 : List (AIRule × Nat))
        (q1 : AIRule × Nat),
      scoredRules e rules = l1 ++ q1 :: l2 →
      (∀ z ∈ l1, z.2 < q1.2) → (∀ z ∈ l2, z.2 ≤ q1.2) →
      (evaluate_event e rules).matched_rule_id = some q1.1.id) := by
  constructor
  · intro e rules p h
    refine ⟨(maxByFirst_spec _ _ h).2.1, (maxByFirst_spec _ _ h).2.2, ?_⟩
    rw [evaluate_event_of_max e rules p h]
  · intro e rules l1 l2 q1 hdec hlt hle
    cases hmax : maxByFirst (scoredRules e rules) with
    | none =>
        exfalso
        rw [hdec] at hmax
        cases l1 <;> simp [maxByFirst] at hmax
    | some p =>
        obtain ⟨hmem, hmaxle, m1, m2, hdec2, hfirst⟩ := maxByFirst_spec _ p hmax
        have hq1mem : q1 ∈ scoredRules e rules := by
          rw [hdec]
          simp
        have hple : p.2 ≤ q1.2 := by
          rw [hdec] at hmem
          rcases List.mem_append.mp hmem with h | h
          · exact le_of_lt (hlt p h)
          rcases List.mem_cons.mp h with h | h
          · rw [h]
          · exact hle p h
        have hp2 : p.2 = q1.2 := le_antisymm hple (hmaxle q1 hq1mem)
        have hpq : p = q1 :=
          firstMax_unique m1 l1 p q1 m2 l2 (by rw [← hdec2, hdec]) hfirst hlt hp2
        rw [evaluate_event_of_max e rules p hmax, hpq]

theorem C4_tie_break_first_witness :
    scoredRules "modify" [demoTieA, demoTieB] = [(demoTieA, 200), (demoTieB, 200)] ∧
    maxByFirst (scoredRules "modify" [demoTieA, demoTieB]) = some (demoTieA, 200) ∧
    (evaluate_event "modify" [demoTieA, demoTieB]).matched_rule_id = some demoTieA.id ∧
    (evaluate_event "modify" [demoTieA, demoTieB]).matched_rule_id = some demoTieA.id :=
  ⟨by decide, by decide,
   (C4_tie_break_first.1 "modify" [demoTieA, demoTieB] (demoTieA, 200) (by decide)).2.2,
   C4_tie_break_first.2 "modify" [demoTieA, demoTieB] [] [(demoTieB, 200)]
     (demoTieA, 200) (by decide) (by simp) (by decide)⟩

theorem rejectionCount_append (fbs : List AIFeedback) (fb : AIFeedback)
    (h : fb.feedback_type = "reject") :
    rejectionCount (fbs ++ [fb]) = rejectionCount fbs + 1 := by
  simp [rejectionCount, List.filter_append, h]

theorem adapt_rule_reject (fbs : List AIFeedback) (r : AIRule)
    (g : Option String) (eid : Nat) :
    adapt_rule fbs r "reject" g eid =
      (if 3 ≤ rejectionCount fbs ∧
          (r.severity_level = some "High" ∨ r.severity_level = some "Critical") then
        ({ r with severity_level := some (severityDowngrade (r.severity_level.getD "")) },
         [⟨"AI_LEARNING",
           "Rule " ++ toString r.id ++ " rejected by admin - may need adjustment",
           some eid⟩,
          ⟨"AI_LEARNING",
           "Rule " ++ toString r.id ++ " severity auto-adjusted from " ++
             pyShowOptStr r.severity_level ++ " to " ++
             severityDowngrade (r.severity_level.getD "") ++
             " after multiple rejections",
           some eid⟩])
      else
        (r, [⟨"AI_LEARNING",
          "Rule " ++ toString r.id ++ " rejected by admin - may need adjustment",
          some eid⟩])) := by
  simp only [adapt_rule, String.reduceEq, reduceIte]


theorem adapt_rule_approve (fbs : List AIFeedback) (r : AIRule)
    (g : Option String) (eid : Nat) :
    adapt_rule fbs r "approve" g eid =
      (if r.adaptive_flag = false then
        ({ r with adaptive_flag := true },
         [⟨"AI_LEARNING",
           "Rule " ++ toString r.id ++ " marked as adaptive after approval",
           some eid⟩])
      else (r, [])) := by
  simp only [adapt_rule, String.reduceEq, reduceIte]

theorem adapt_rule_modify_falsy (fbs : List AIFeedback) (r : AIRule)
    (g : Option String) (eid : Nat) (h : optStrTruthy g = false) :
    adapt_rule fbs r "modify" g eid = (r, []) := by
  simp only [adapt_rule, String.reduceEq, reduceIte]
  simp [h]

theorem adapt_rule_id (fbs : List AIFeedback) (r : AIRule) (ft : String)
    (g : Option String) (eid : Nat) :
    (adapt_rule fbs r ft g eid).1.id = r.id := by
  unfold adapt_rule
  split_ifs <;> rfl


theorem updateRuleInStore_twice (rules : List AIRule) (a b : AIRule)
    (h : a.id = b.id) :
    updateRuleInStore (updateRuleInStore rules a) b = updateRuleInStore rules b := by
  unfold updateRuleInStore
  rw [List.map_map]
  apply List.map_congr_left
  intro x _
  by_cases hid : x.id = a.id
  · simp [Function.comp, hid, h]
  · simp [Function.comp, hid]





theorem aifeedback_ctor_raises : aifeedbackCtorOk = false := by decide

/-- C2 (code bug): the claim describes `submit_feedback`'s and
`_adapt_rule`'s intended reject behaviour, but the program never
reaches it — `AIFeedback(..., suggested_severity=...)` at
`feedback_processor.py` line 38 raises `TypeError` on every call
(`models.AIFeedback` has no `suggested_severity` attribute), before the
feedback row, the `AI_FEEDBACK`/`AI_LEARNING` logs or any downgrade.
First conjunct: the 3rd global rejection naming the Critical rule —
the claim's own scenario — errors out with nothing persisted. The
remaining conjuncts evaluate `_adapt_rule` (the unreachable adaptation
logic) at that scenario: with the 3rd rejection counted it would
downgrade Critical→High exactly one step, and below the threshold it
would change nothing — i.e. the claim matches the dead code's logic,
and only the constructor slip contradicts it. -/
theorem C2_reject_raises_typeerror :
    submit_feedback demoStateC2 12 1 "reject" none (some demoRuleCrit) none 7 =
      Except.error aifeedbackTypeError ∧
    (adapt_rule (demoStateC2.feedbacks ++ [⟨12, 1, "reject", none⟩])
        demoRuleCrit "reject" none 12).1.severity_level = some "High" ∧
    (adapt_rule demoStateC2.feedbacks demoRuleCrit "reject" none 12).1.severity_level =
      some "Critical" :=
  ⟨rfl, by decide, by decide⟩

/-- C5 (code bug): the claim is about submitting approve feedback, but
every `submit_feedback` call raises `TypeError` at the `AIFeedback`
constructor before `_adapt_rule` runs, so no approval ever sets
`adaptive_flag`. First conjunct: an approve submission on the
non-adaptive rule errors out. The remaining conjuncts evaluate the
unreachable `_adapt_rule` logic the claim describes: approve on a
non-adaptive rule would set the flag and log a learning event, approve
on an already-adaptive rule would change nothing, and applying approve
twice would leave the rule exactly as applying it once. -/
theorem C5_approve_raises_typeerror :
    submit_feedback demoStateC5 1 1 "approve" none (some demoRuleFresh) none 4 =
      Except.error aifeedbackTypeError ∧
    adapt_rule [] demoRuleFresh "approve" none 1 =
      ({ demoRuleFresh with adaptive_flag := true },
       [⟨"AI_LEARNING",
         "Rule " ++ toString demoRuleFresh.id ++ " marked as adaptive after approval",
         some 1⟩]) ∧
    adapt_rule [] demoRule "approve" none 1 = (demoRule, []) ∧
    (adapt_rule [] (adapt_rule [] demoRuleFresh "approve" none 1).1 "approve" none 1).1 =
      (adapt_rule [] demoRuleFresh "approve" none 1).1 :=
  ⟨rfl, by decide, by decide, by decide⟩

/-- C6 (code bug): the claim presumes the Feedback Adaptor performs
rule mutations followed by cache invalidation, but the adaptor never
reaches `_adapt_rule` or `clear_rule_cache`: every `submit_feedback`
call raises `TypeError` at the `AIFeedback` constructor. First
conjunct: a modify submission with a suggested severity — a rule
mutation per the claim — errors out. Second conjunct: the warm cache
entry therefore survives, and a fetch 30 seconds later (well inside the
60-second TTL) still serves the stale snapshot. -/
theorem C6_mutation_never_reached :
    submit_feedback demoStateC2 13 1 "modify" none (some demoRuleCrit)
        (some "Low") 8 =
      Except.error aifeedbackTypeError ∧
    get_cached_rules demoStateC2.rules demoStateC2.cache 30 =
      ([demoRuleCrit, demoRuleLow], demoStateC2.cache) :=
  ⟨rfl, by decide⟩

/-- C10 (code bug): the claim says every feedback submission with a
rule refreshes `last_updated` and clears the cache "rather than raising
an error"; in the program each of the three claimed no-mutation cases —
approve on an already-adaptive rule, reject below the threshold, modify
without a suggested severity — raises `TypeError` at the `AIFeedback`
constructor before `update_rule_timestamp` or `clear_rule_cache` can
run. -/
theorem C10_submit_raises_typeerror :
    submit_feedback demoStateC5 1 1 "approve" none (some demoRule) none 9 =
      Except.error aifeedbackTypeError ∧
    submit_feedback demoStateC5 2 1 "reject" none (some demoRuleFresh) none 9 =
      Except.error aifeedbackTypeError ∧
    submit_feedback demoStateC5 3 1 "modify" none (some demoRuleFresh) none 9 =
      Except.error aifeedbackTypeError :=
  ⟨rfl, rfl, rfl⟩

theorem sendLoop_email_only (sendOk : Nat → Bool) (m : Nat) :
    ∀ l, ∀ ef ∈ (sendLoop sendOk m l).2, isEmailEffect ef = true := by
  intro l
  induction l with
  | nil => simp [sendLoop]
  | cons a t ih =>
      intro ef hef
      simp only [sendLoop] at hef
      by_cases h : sendOk a = true
      · simp only [h, if_pos] at hef
        simp only [List.mem_singleton] at hef
        subst hef
        rfl
      · rw [if_neg h] at hef
        simp only [List.mem_cons, List.mem_append] at hef
        rcases hef with h1 | h1 | h1
        · subst h1; rfl
        · by_cases hb : a < m - 1
          · simp only [if_pos hb, List.mem_singleton] at h1
            subst h1; rfl
          · simp only [if_neg hb, List.not_mem_nil] at h1
        · exact ih ef h1

theorem sendLoop_attempts (sendOk : Nat → Bool) (m : Nat) :
    ∀ l, (sendLoop sendOk m l).2.countP isAttempt ≤ l.length := by
  intro l
  induction l with
  | nil => simp [sendLoop]
  | cons a t ih =>
      simp only [sendLoop]
      by_cases h : sendOk a = true
      · simp [h, List.countP_cons, isAttempt]
      · rw [if_neg h]
        simp only [List.countP_cons, List.countP_append, List.length_cons]
        have hb : (if a < m - 1 then [NotifEffect.sleep (2 ^ a)] else []).countP isAttempt = 0 := by
          split <;> simp [isAttempt]
        simp only [hb]
        simp [isAttempt]
        omega

theorem send_email_email_only (cfg : Bool) (sendOk : Nat → Bool) (m : Nat) :
    ∀ ef ∈ (send_email_with_retry cfg sendOk m).2, isEmailEffect ef = true := by
  unfold send_email_with_retry
  split
  · exact sendLoop_email_only sendOk m _
  · simp

theorem send_email_all_fail (sOk : Nat → Bool) (h : ∀ n, sOk n = false) :
    send_email_with_retry true sOk 3 =
      (false, [.emailAttempt 0 false, .sleep 1, .emailAttempt 1 false,
        .sleep 2, .emailAttempt 2 false]) := by
  have hr : List.range 3 = [0, 1, 2] := by decide
  simp [send_email_with_retry, hr, sendLoop, h 0, h 1, h 2]

theorem send_batched_app (cfg : Bool) (sOk : Nat → Bool) (b : List String)
    (m : String) :
    send_batched_notifications cfg sOk (b ++ [m]) =
      ([], (send_email_with_retry cfg sOk 3).2) := by
  cases b <;> rfl

theorem notify_admins_head (st : NotifyState) (cfg : Bool) (sOk : Nat → Bool)
    (msg : String) (imm : Bool) (now : Nat) :
    ∃ tl, (notify_admins st cfg sOk msg imm now).2 =
        NotifEffect.dblog "NOTIFY" msg none :: tl ∧
      ∀ ef ∈ tl, isEmailEffect ef = true := by
  unfold notify_admins
  by_cases himm : imm = true
  · simp only [himm, if_pos]
    exact ⟨_, rfl, send_email_email_only cfg sOk 3⟩
  · have himm' : imm = false := by
      cases imm
      · rfl
      · exact absurd rfl himm
    simp only [himm']
    simp only [Bool.false_eq_true, if_false]
    split
    · refine ⟨_, rfl, ?_⟩
      unfold send_batched_notifications
      split
      · simp
      · exact send_email_email_only cfg sOk 3
    · exact ⟨[], rfl, by simp⟩

/-- C8: every admin notification commits its NOTIFY audit log first,
before any delivery attempt and whatever the transport outcome (the
rest of the trace is delivery machinery only); delivery makes at most 3
attempts; and when every attempt fails the function returns `false`
(never an exception) after exactly 3 attempts with sleeps of
`2^attempt` time units between consecutive attempts. -/
theorem C8_notify_log_then_retry :
    (∀ (st : NotifyState) (cfg : Bool) (sOk : Nat → Bool) (msg : String)
        (imm : Bool) (now : Nat),
        ∃ tl, (notify_admins st cfg sOk msg imm now).2 =
            NotifEffect.dblog "NOTIFY" msg none :: tl ∧
          ∀ ef ∈ tl, isEmailEffect ef = true) ∧
    (∀ (cfg : Bool) (sOk : Nat → Bool),
        (send_email_with_retry cfg sOk 3).2.countP isAttempt ≤ 3) ∧
    (∀ sOk : Nat → Bool, (∀ n, sOk n = false) →
        send_email_with_retry true sOk 3 =
          (false, [.emailAttempt 0 false, .sleep 1, .emailAttempt 1 false,
            .sleep 2, .emailAttempt 2 false])) := by
  refine ⟨notify_admins_head, ?_, send_email_all_fail⟩
  intro cfg sOk
  unfold send_email_with_retry
  split
  · have := sendLoop_attempts sOk 3 (List.range 3)
    simpa using this
  · simp

theorem C8_notify_log_then_retry_witness :
    (∀ n, (fun _ => false : Nat → Bool) n = false) ∧
    send_email_with_retry true (fun _ => false) 3 =
      (false, [.emailAttempt 0 false, .sleep 1, .emailAttempt 1 false,
        .sleep 2, .emailAttempt 2 false]) :=
  ⟨fun _ => rfl, C8_notify_log_then_retry.2.2 (fun _ => false) (fun _ => rfl)⟩

/-- C9: the first non-immediate notification after process start
(`_last_batch_send is None`) flushes the pending batch at once — the
batch is cleared, the flush time recorded, and the combined email
handed to the (retrying) transport — instead of waiting out the
300-second interval; afterwards a flush is triggered exactly when at
least `_batch_interval` seconds passed since the last flush, and
flushing clears the pending batch, while below the interval the message
only accumulates. -/
theorem C9_batch_flush (st : NotifyState) (cfg : Bool) (sOk : Nat → Bool)
    (msg : String) (now : Nat) :
    (st.last_batch_send = none →
      notify_admins st cfg sOk msg false now =
        ({ batch := [], last_batch_send := some now },
         NotifEffect.dblog "NOTIFY" msg none :: (send_email_with_retry cfg sOk 3).2)) ∧
    (∀ t, st.last_batch_send = some t → batchInterval ≤ now - t →
      notify_admins st cfg sOk msg false now =
        ({ batch := [], last_batch_send := some now },
         NotifEffect.dblog "NOTIFY" msg none :: (send_email_with_retry cfg sOk 3).2)) ∧
    (∀ t, st.last_batch_send = some t → now - t < batchInterval →
      notify_admins st cfg sOk msg false now =
        ({ batch := st.batch ++ [msg], last_batch_send := st.last_batch_send },
         [NotifEffect.dblog "NOTIFY" msg none])) := by
  refine ⟨?_, ?_, ?_⟩
  · intro h
    unfold notify_admins
    rw [h]
    simp [send_batched_app cfg sOk st.batch msg]
  · intro t ht hge
    unfold notify_admins
    rw [ht]
    simp only [Bool.false_eq_true, if_false, decide_eq_true_eq]
    rw [if_pos hge]
    simp [send_batched_app cfg sOk st.batch msg]
  · intro t ht hlt
    unfold notify_admins
    rw [ht]
    simp only [Bool.false_eq_true, if_false, decide_eq_true_eq]
    rw [if_neg (by omega)]

theorem C9_batch_flush_witness :
    ({ batch := [], last_batch_send := none } : NotifyState).last_batch_send = none ∧
    notify_admins { batch := [], last_batch_send := none } false (fun _ => false) "m" false 0 =
      ({ batch := [], last_batch_send := some 0 },
       NotifEffect.dblog "NOTIFY" "m" none :: (send_email_with_retry false (fun _ => false) 3).2) :=
  ⟨rfl, (C9_batch_flush { batch := [], last_batch_send := none } false
    (fun _ => false) "m" 0).1 rfl⟩

theorem email_not_decision (ef : NotifEffect) (h : isEmailEffect ef = true) :
    isAIDecisionLog ef = false := by
  cases ef <;> simp_all [isEmailEffect, isAIDecisionLog]

theorem notify_no_decision (st : NotifyState) (cfg : Bool) (sOk : Nat → Bool)
    (msg : String) (imm : Bool) (now : Nat) :
    ∀ ef ∈ (notify_admins st cfg sOk msg imm now).2, isAIDecisionLog ef = false := by
  obtain ⟨tl, heq, htl⟩ := notify_admins_head st cfg sOk msg imm now
  rw [heq]
  intro ef hef
  rcases List.mem_cons.mp hef with h | h
  · subst h
    simp [isAIDecisionLog]
  · exact email_not_decision ef (htl ef h)

theorem escalate_no_decision (sev : String) (eid : Nat) (b : Bool) :
    ∀ ef ∈ escalate_if_needed sev eid b, isAIDecisionLog ef = false := by
  unfold escalate_if_needed
  intro ef hef
  split at hef
  · simp at hef
  · split at hef <;> simp only [List.mem_singleton] at hef <;> subst hef <;>
      simp [isAIDecisionLog]

theorem handleTrace_shape (store : List AIRule) (cache : Option (List AIRule × Nat))
    (nst : NotifyState) (eid : Nat) (etype : String) (now : Nat)
    (cfg : Bool) (sOk : Nat → Bool) (schedOk : Bool) :
    ∃ m rest, handleTrace store cache nst eid etype now cfg sOk schedOk =
        NotifEffect.dblog "AI_DECISION" m (some eid) :: rest ∧
      ∀ ef ∈ rest, isAIDecisionLog ef = false := by
  simp only [handleTrace, handle_event]
  by_cases hLow : (evaluate_event etype (get_cached_rules store cache now).1).severity = "Low"
  · rw [if_pos hLow]
    exact ⟨_, [NotifEffect.markProcessed eid], rfl, by simp [isAIDecisionLog]⟩
  · rw [if_neg hLow]
    by_cases hMed : (evaluate_event etype (get_cached_rules store cache now).1).severity = "Medium" ∨
        (evaluate_event etype (get_cached_rules store cache now).1).severity = "High" ∨
        (evaluate_event etype (get_cached_rules store cache now).1).severity = "Critical"
    · rw [if_pos hMed]
      by_cases hCrit : (evaluate_event etype (get_cached_rules store cache now).1).severity = "Critical"
      · rw [if_pos hCrit]
        refine ⟨_, _, rfl, ?_⟩
        intro ef hef
        simp only [List.append_assoc, List.mem_append, List.mem_singleton] at hef
        rcases hef with h | h | h
        · exact notify_no_decision _ _ _ _ _ _ ef h
        · exact escalate_no_decision _ _ _ ef h
        · subst h
          simp [isAIDecisionLog]
      · rw [if_neg hCrit]
        refine ⟨_, _, rfl, ?_⟩
        intro ef hef
        simp only [List.append_nil, List.mem_append] at hef
        rcases hef with h | h
        · exact notify_no_decision _ _ _ _ _ _ ef h
        · exact escalate_no_decision _ _ _ ef h
    · rw [if_neg hMed]
      by_cases hCrit : (evaluate_event etype (get_cached_rules store cache now).1).severity = "Critical"
      · rw [if_pos hCrit]
        refine ⟨_, _, rfl, ?_⟩
        intro ef hef
        simp only [List.nil_append, List.mem_singleton] at hef
        subst hef
        simp [isAIDecisionLog]
      · rw [if_neg hCrit]
        exact ⟨_, [], rfl, by simp⟩

/-- C7: one `handle_event` call (one evaluation) emits exactly one
AI_DECISION audit log, it is the very first effect, and every
notification log or escalation (scheduled or fallback) for the event
comes strictly after it. -/
theorem C7_decision_log_first (store : List AIRule)
    (cache : Option (List AIRule × Nat)) (nst : NotifyState) (eid : Nat)
    (etype : String) (now : Nat) (cfg : Bool) (sOk : Nat → Bool)
    (schedOk : Bool) :
    (handleTrace store cache nst eid etype now cfg sOk schedOk).countP
        isAIDecisionLog = 1 ∧
    (∃ ef rest, handleTrace store cache nst eid etype now cfg sOk schedOk =
        ef :: rest ∧ isAIDecisionLog ef = true) ∧
    (∀ j ef, (handleTrace store cache nst eid etype now cfg sOk schedOk).get? j =
        some ef → isNotifyOrEscalation ef = true → 0 < j) := by
  obtain ⟨m, rest, heq, hrest⟩ :=
    handleTrace_shape store cache nst eid etype now cfg sOk schedOk
  rw [heq]
  refine ⟨?_, ⟨_, rest, rfl, by simp [isAIDecisionLog]⟩, ?_⟩
  · rw [List.countP_cons]
    have h0 : rest.countP isAIDecisionLog = 0 :=
      List.countP_eq_zero.mpr (by intro a ha; simp [hrest a ha])
    simp [h0, isAIDecisionLog]
  · intro j ef hj hne
    cases j with
    | zero =>
        simp only [List.get?_cons_zero, Option.some.injEq] at hj
        subst hj
        simp [isNotifyOrEscalation] at hne
    | succ n => exact Nat.succ_pos n

theorem C7_decision_log_first_witness :
    (handleTrace [demoRule] none { batch := [], last_batch_send := none } 1
        "modify" 0 false (fun _ => false) true).get? 2 =
      some (NotifEffect.schedule 300 "High" 1) ∧
    isNotifyOrEscalation (NotifEffect.schedule 300 "High" 1) = true ∧
    0 < 2 :=
  ⟨by decide, by decide,
   (C7_decision_log_first [demoRule] none { batch := [], last_batch_send := none }
      1 "modify" 0 false (fun _ => false) true).2.2 2
    (NotifEffect.schedule 300 "High" 1) (by decide) (by decide)⟩
